import Mathlib

/-!
Verification of the controller session layer of the gomaasapi repository
(src/controller.go): version negotiation, request primitives, per-operation
error translation, file-upload validation and the request sequencer.

The Go code is shallowly embedded: the external Transport collaborator
(client.go, not part of this core) is a record of functions supplied as a
parameter; failures it produces are a `TransportError` (a ServerError with
status code and body, or any other error, which also covers JSON decode
failures of a response body).  Semantic errors of the taxonomy are the
`MaasError` structure, carrying a Kind, a message and the underlying
transport cause when there is one.  Resource decoders (readDevice,
readMachines, ...) are external collaborators, passed as function
parameters.  Request identifiers are used by the source only in trace
logging, so the sequencer is modelled on its own as the stream of values
produced by repeated `nextRequestID` calls on the package counter.
-/

namespace Gomaasapi

/-- Loosely-typed JSON value tree, the result of decoding a response body
(Go: json.Unmarshal into an interface value).  Numeric payloads are
modelled as integers; no claim depends on numbers. -/
inductive JSONValue where
  | obj (fields : List (String × JSONValue))
  | arr (elems : List JSONValue)
  | str (s : String)
  | num (n : Int)
  | bool (b : Bool)
  | null

/-- True exactly on string values. -/
def JSONValue.isString : JSONValue → Bool
  | .str _ => true
  | _ => false

/-- A failure coming out of the Transport collaborator.  `serverError`
models gomaasapi's ServerError (a non-2xx response exposing the numeric
status code and the response body text); `generic` models every other
error, including a JSON decode failure of a response body. -/
inductive TransportError where
  | serverError (statusCode : Nat) (bodyMessage : String)
  | generic (msg : String)
deriving DecidableEq, Repr

/-- Status code of a transport failure, when it is a ServerError. -/
def statusOf : TransportError → Option Nat
  | .serverError s _ => some s
  | .generic _ => none

/-- Human-readable message of a transport failure. -/
def transportMessage : TransportError → String
  | .serverError _ body => body
  | .generic m => m

/-- The semantic error taxonomy of the spec (§7) together with the tags the
juju errors package adds locally: `deserialization` for
WrapWithDeserializationError, `plain` for an untagged error such as
errors.Trace of a transport failure or errors.Errorf. -/
inductive ErrorKind where
  | notValid
  | permissionDenied
  | noMatch
  | badRequest
  | cannotComplete
  | unsupportedVersion
  | unexpected
  | deserialization
  | plain
deriving DecidableEq, Repr

/-- A Semantic Error: a Kind, a message, and the underlying transport
cause when the error wraps one. -/
structure MaasError where
  kind : ErrorKind
  message : String
  cause : Option TransportError
deriving DecidableEq, Repr

/-- Go: NewUnexpectedError(err) — wraps an unclassified failure. -/
def NewUnexpectedError (err : TransportError) : MaasError :=
  ⟨.unexpected, transportMessage err, some err⟩

/-- Go: EnsureTrailingSlash (util.go, not under src/).  Modelled from the
spec: every primitive normalizes the resource path by ensuring a canonical
trailing separator before dispatch. -/
def EnsureTrailingSlash (s : String) : String :=
  if s.data.getLast? = some '/' then s else s ++ "/"

/-- The Transport collaborator bound to one API version: signed GET / POST
/ DELETE returning a decoded JSON value or a transport failure (spec §6).
`get path op params`; `post path op params files` where files maps a name
to byte content. -/
structure ClientModel where
  get : String → String → List (String × String) → Except TransportError JSONValue
  post : String → String → List (String × String) → List (String × List Nat) →
      Except TransportError JSONValue
  delete : String → Except TransportError Unit

/-- Go: controller.get — fetch without op or params. -/
def cget (c : ClientModel) (path : String) : Except TransportError JSONValue :=
  c.get (EnsureTrailingSlash path) "" []

/-- Go: controller.getQuery — fetch with query params. -/
def cgetQuery (c : ClientModel) (path : String) (params : List (String × String)) :
    Except TransportError JSONValue :=
  c.get (EnsureTrailingSlash path) "" params

/-- Go: controller.getOp — fetch with a sub-operation name. -/
def cgetOp (c : ClientModel) (path op : String) : Except TransportError JSONValue :=
  c.get (EnsureTrailingSlash path) op []

/-- Go: controller.post — POST with a sub-operation and form params, no files. -/
def cpost (c : ClientModel) (path op : String) (params : List (String × String)) :
    Except TransportError JSONValue :=
  c.post (EnsureTrailingSlash path) op params []

/-- Go: controller.postFile — POST with exactly one file payload named "file". -/
def cpostFile (c : ClientModel) (path op : String) (params : List (String × String))
    (fileContent : List Nat) : Except TransportError JSONValue :=
  c.post (EnsureTrailingSlash path) op params [("file", fileContent)]

/-- Go: controller.delete. -/
def cdelete (c : ClientModel) (path : String) : Except TransportError Unit :=
  c.delete (EnsureTrailingSlash path)

/-- Ordered multi-valued query/form parameters.  Modelled from the spec:
URLParams (urlparams.go, not under src/) appends a pair only when the
value is non-empty. -/
def MaybeAdd (vals : List (String × String)) (name value : String) :
    List (String × String) :=
  if value ≠ "" then vals ++ [(name, value)] else vals

/-- Modelled from the spec: MaybeAddMany appends each non-empty value in order. -/
def MaybeAddMany (vals : List (String × String)) (name : String)
    (values : List String) : List (String × String) :=
  values.foldl (fun acc v => MaybeAdd acc name v) vals

/-- Modelled from the spec: MaybeAddInt appends the decimal rendering when nonzero. -/
def MaybeAddInt (vals : List (String × String)) (name : String) (value : Int) :
    List (String × String) :=
  if value ≠ 0 then vals ++ [(name, toString value)] else vals

/-- Modelled from the spec: MaybeAddBool appends the rendering when true. -/
def MaybeAddBool (vals : List (String × String)) (name : String) (value : Bool) :
    List (String × String) :=
  if value then vals ++ [(name, "true")] else vals

/-- Go: version.Number (juju/version, external).  Only Major.Minor are
negotiated; patch is informational and never parsed by this core. -/
structure Number where
  Major : Nat
  Minor : Nat
deriving DecidableEq, Repr

/-- An established controller session: the Transport handle, the
negotiated protocol version, and the server capability set.  set.Strings
is modelled as the list of strings added to it, observed through
membership. -/
structure Ctrl where
  client : ClientModel
  apiVersion : Number
  capabilities : List String

/-- Go: BootResources.  The resource decoder is an external collaborator
receiving the negotiated version and the decoded response value. -/
def BootResources {α} (c : Ctrl)
    (readBootResources : Number → JSONValue → Except MaasError (List α)) :
    Except MaasError (List α) :=
  match cget c.client "boot-resources" with
  | .error err => .error (NewUnexpectedError err)
  | .ok source =>
    match readBootResources c.apiVersion source with
    | .error e => .error e
    | .ok resources => .ok resources

/-- Go: Fabrics. -/
def Fabrics {α} (c : Ctrl)
    (readFabrics : Number → JSONValue → Except MaasError (List α)) :
    Except MaasError (List α) :=
  match cget c.client "fabrics" with
  | .error err => .error (NewUnexpectedError err)
  | .ok source =>
    match readFabrics c.apiVersion source with
    | .error e => .error e
    | .ok fabrics => .ok fabrics

/-- Go: Spaces. -/
def Spaces {α} (c : Ctrl)
    (readSpaces : Number → JSONValue → Except MaasError (List α)) :
    Except MaasError (List α) :=
  match cget c.client "spaces" with
  | .error err => .error (NewUnexpectedError err)
  | .ok source =>
    match readSpaces c.apiVersion source with
    | .error e => .error e
    | .ok spaces => .ok spaces

/-- Go: Zones. -/
def Zones {α} (c : Ctrl)
    (readZones : Number → JSONValue → Except MaasError (List α)) :
    Except MaasError (List α) :=
  match cget c.client "zones" with
  | .error err => .error (NewUnexpectedError err)
  | .ok source =>
    match readZones c.apiVersion source with
    | .error e => .error e
    | .ok zones => .ok zones

/-- Go: DevicesArgs. -/
structure DevicesArgs where
  Hostname : String
  MACAddresses : List String
  SystemIDs : List String
  Domain : String
  Zone : String
  AgentName : String

/-- Query parameters built by Devices, in source order. -/
def devicesParams (args : DevicesArgs) : List (String × String) :=
  MaybeAdd (MaybeAdd (MaybeAdd (MaybeAddMany (MaybeAddMany (MaybeAdd []
    "hostname" args.Hostname) "mac_address" args.MACAddresses)
    "id" args.SystemIDs) "domain" args.Domain) "zone" args.Zone)
    "agent_name" args.AgentName

/-- Go: Devices.  Setting the controller back-reference on each decoded
device is not observable here and is elided. -/
def Devices {α} (c : Ctrl) (args : DevicesArgs)
    (readDevices : Number → JSONValue → Except MaasError (List α)) :
    Except MaasError (List α) :=
  match cgetQuery c.client "devices" (devicesParams args) with
  | .error err => .error (NewUnexpectedError err)
  | .ok source =>
    match readDevices c.apiVersion source with
    | .error e => .error e
    | .ok devices => .ok devices

/-- Go: CreateDeviceArgs. -/
structure CreateDeviceArgs where
  Hostname : String
  MACAddresses : List String
  Domain : String
  Parent : String

/-- Form parameters built by CreateDevice, in source order. -/
def createDeviceParams (args : CreateDeviceArgs) : List (String × String) :=
  MaybeAdd (MaybeAddMany (MaybeAdd (MaybeAdd [] "hostname" args.Hostname)
    "domain" args.Domain) "mac_addresses" args.MACAddresses)
    "parent" args.Parent

/-- Go: CreateDevice.  An empty MAC-address list is rejected locally with
NewBadRequestError before any network call; a ServerError with status 400
is translated to bad-request; every other failure becomes unexpected. -/
def CreateDevice {α} (c : Ctrl) (args : CreateDeviceArgs)
    (readDevice : Number → JSONValue → Except MaasError α) :
    Except MaasError α :=
  if args.MACAddresses.length = 0 then
    .error ⟨.badRequest, "at least one MAC address must be specified", none⟩
  else
    match cpost c.client "devices" "create" (createDeviceParams args) with
    | .error err =>
      .error <|
        match err with
        | .serverError status body =>
          if status = 400 then ⟨.badRequest, body, some err⟩
          else NewUnexpectedError err
        | .generic _ => NewUnexpectedError err
    | .ok result =>
      match readDevice c.apiVersion result with
      | .error e => .error e
      | .ok device => .ok device

/-- Go: MachinesArgs. -/
structure MachinesArgs where
  Hostnames : List String
  MACAddresses : List String
  SystemIDs : List String
  Domain : String
  Zone : String
  AgentName : String

/-- Query parameters built by Machines, in source order. -/
def machinesParams (args : MachinesArgs) : List (String × String) :=
  MaybeAdd (MaybeAdd (MaybeAdd (MaybeAddMany (MaybeAddMany (MaybeAddMany []
    "hostname" args.Hostnames) "mac_address" args.MACAddresses)
    "id" args.SystemIDs) "domain" args.Domain) "zone" args.Zone)
    "agent_name" args.AgentName

/-- Go: Machines. -/
def Machines {α} (c : Ctrl) (args : MachinesArgs)
    (readMachines : Number → JSONValue → Except MaasError (List α)) :
    Except MaasError (List α) :=
  match cgetQuery c.client "machines" (machinesParams args) with
  | .error err => .error (NewUnexpectedError err)
  | .ok source =>
    match readMachines c.apiVersion source with
    | .error e => .error e
    | .ok machines => .ok machines

/-- Go: AllocateMachineArgs. -/
structure AllocateMachineArgs where
  Hostname : String
  Architecture : String
  MinCPUCount : Int
  MinMemory : Int
  Tags : List String
  NotTags : List String
  Networks : List String
  NotNetworks : List String
  Zone : String
  NotInZone : List String
  AgentName : String
  Comment : String
  DryRun : Bool

/-- Form parameters built by AllocateMachine, in source order. -/
def allocateMachineParams (args : AllocateMachineArgs) : List (String × String) :=
  MaybeAddBool (MaybeAdd (MaybeAdd (MaybeAddMany (MaybeAdd (MaybeAddMany
    (MaybeAddMany (MaybeAddMany (MaybeAddMany (MaybeAddInt (MaybeAddInt
    (MaybeAdd (MaybeAdd [] "name" args.Hostname) "arch" args.Architecture)
    "cpu_count" args.MinCPUCount) "mem" args.MinMemory) "tags" args.Tags)
    "not_tags" args.NotTags) "networks" args.Networks)
    "not_networks" args.NotNetworks) "zone" args.Zone)
    "not_in_zone" args.NotInZone) "agent_name" args.AgentName)
    "comment" args.Comment) "dry_run" args.DryRun

/-- Go: AllocateMachine.  A ServerError with status 409 (no matching
machines) is translated to no-match; every other failure becomes
unexpected. -/
def AllocateMachine {α} (c : Ctrl) (args : AllocateMachineArgs)
    (readMachine : Number → JSONValue → Except MaasError α) :
    Except MaasError α :=
  match cpost c.client "machines" "allocate" (allocateMachineParams args) with
  | .error err =>
    .error <|
      match err with
      | .serverError status body =>
        if status = 409 then ⟨.noMatch, body, some err⟩
        else NewUnexpectedError err
      | .generic _ => NewUnexpectedError err
  | .ok result =>
    match readMachine c.apiVersion result with
    | .error e => .error e
    | .ok machine => .ok machine

/-- Go: ReleaseMachinesArgs. -/
structure ReleaseMachinesArgs where
  SystemIDs : List String
  Comment : String

/-- Form parameters built by ReleaseMachines, in source order. -/
def releaseMachinesParams (args : ReleaseMachinesArgs) : List (String × String) :=
  MaybeAdd (MaybeAddMany [] "machines" args.SystemIDs) "comment" args.Comment

/-- Go: ReleaseMachines.  A ServerError is translated by status: 400 to
bad-request, 403 to permission-denied, 409 to cannot-complete; everything
else becomes unexpected. -/
def ReleaseMachines (c : Ctrl) (args : ReleaseMachinesArgs) :
    Except MaasError Unit :=
  match cpost c.client "machines" "release" (releaseMachinesParams args) with
  | .error err =>
    .error <|
      match err with
      | .serverError status body =>
        if status = 400 then ⟨.badRequest, body, some err⟩
        else if status = 403 then ⟨.permissionDenied, body, some err⟩
        else if status = 409 then ⟨.cannotComplete, body, some err⟩
        else NewUnexpectedError err
      | .generic _ => NewUnexpectedError err
  | .ok _ => .ok ()

/-- Go: Files.  Lists files with an optional name-prefix filter. -/
def Files {α} (c : Ctrl) (pfx : String)
    (readFiles : Number → JSONValue → Except MaasError (List α)) :
    Except MaasError (List α) :=
  match cgetQuery c.client "files" (MaybeAdd [] "prefix" pfx) with
  | .error err => .error (NewUnexpectedError err)
  | .ok source =>
    match readFiles c.apiVersion source with
    | .error e => .error e
    | .ok files => .ok files

/-- Go: GetFile.  An empty filename is rejected locally with a not-valid
error before any network call; a ServerError with status 404 is translated
to no-match; every other failure becomes unexpected. -/
def GetFile {α} (c : Ctrl) (filename : String)
    (readFile : Number → JSONValue → Except MaasError α) :
    Except MaasError α :=
  if filename = "" then
    .error ⟨.notValid, "missing filename", none⟩
  else
    match cget c.client ("files/" ++ filename) with
    | .error err =>
      .error <|
        match err with
        | .serverError status body =>
          if status = 404 then ⟨.noMatch, body, some err⟩
          else NewUnexpectedError err
        | .generic _ => NewUnexpectedError err
    | .ok source => readFile c.apiVersion source

/-- Go: AddFileArgs.  The Reader is modelled by the byte stream it would
yield before EOF; Length is the declared int64 length. -/
structure AddFileArgs where
  Filename : String
  Content : Option (List Nat)
  Reader : Option (List Nat)
  Length : Int

/-- Go: path.Split — splits a path at its final slash into a directory
part (up to and including the slash) and a file part. -/
def pathSplit (s : String) : String × String :=
  let rev := s.data.reverse
  (⟨(rev.dropWhile (· ≠ '/')).reverse⟩, ⟨(rev.takeWhile (· ≠ '/')).reverse⟩)

/-- Go: AddFileArgs.Validate — the filename must be non-empty and carry no
path, and exactly one of Content or (Reader, Length) must be supplied. -/
def AddFileArgs.Validate (a : AddFileArgs) : Option MaasError :=
  if (pathSplit a.Filename).1 ≠ "" then
    some ⟨.notValid, "paths in Filename", none⟩
  else if a.Filename = "" then
    some ⟨.notValid, "missing Filename", none⟩
  else
    match a.Content with
    | none =>
      match a.Reader with
      | none => some ⟨.notValid, "missing Content or Reader", none⟩
      | some _ =>
        if a.Length = 0 then some ⟨.notValid, "missing Length", none⟩
        else none
    | some _ =>
      if a.Reader.isSome then
        some ⟨.notValid, "specifying Content and Reader", none⟩
      else if a.Length ≠ 0 then
        some ⟨.notValid, "specifying Length and Content", none⟩
      else none

/-- Go: AddFile.  After validation, the content posted is Content, or else
ReadAll(LimitReader(Reader, Length)): the first Length bytes of the
reader, or all of them when it yields fewer, with no length check.  A
ServerError with status 400 is translated to bad-request; every other
failure becomes unexpected. -/
def AddFile (c : Ctrl) (args : AddFileArgs) : Except MaasError Unit :=
  match args.Validate with
  | some e => .error e
  | none =>
    let fileContent : List Nat :=
      match args.Content with
      | some content => content
      | none => (args.Reader.getD []).take args.Length.toNat
    match cpostFile c.client "files" "create" [("filename", args.Filename)]
        fileContent with
    | .error err =>
      .error <|
        match err with
        | .serverError status body =>
          if status = 400 then ⟨.badRequest, body, some err⟩
          else NewUnexpectedError err
        | .generic _ => NewUnexpectedError err
    | .ok _ => .ok ()

/-- Go: checkCreds — the authenticated identity check.  A ServerError with
status 401 is translated to permission-denied; every other failure becomes
unexpected. -/
def checkCreds (c : ClientModel) : Except MaasError Unit :=
  match cgetOp c "users" "whoami" with
  | .error err =>
    .error <|
      match err with
      | .serverError status body =>
        if status = 401 then ⟨.permissionDenied, body, some err⟩
        else NewUnexpectedError err
      | .generic _ => NewUnexpectedError err
  | .ok _ => .ok ()

/-- Splits a character list into the groups between dots. -/
def splitDot : List Char → List (List Char)
  | [] => [[]]
  | c :: rest =>
    let r := splitDot rest
    if c = '.' then [] :: r
    else
      match r with
      | [] => [[c]]
      | g :: gs => (c :: g) :: gs

/-- Accumulates decimal digits into a number, failing on a non-digit. -/
def natFromDigitsAux : List Char → Nat → Option Nat
  | [], acc => some acc
  | c :: rest, acc =>
    if c.isDigit then natFromDigitsAux rest (acc * 10 + (c.toNat - 48))
    else none

/-- Parses a non-empty all-digit character list as a decimal number. -/
def natFromDigits : List Char → Option Nat
  | [] => none
  | c :: rest => natFromDigitsAux (c :: rest) 0

/-- Go: version.ParseMajorMinor (juju/version, external) — accepts exactly
a major.minor pair of decimal numbers. -/
def parseMajorMinor (v : String) : Option (Nat × Nat) :=
  match splitDot v.data with
  | [a, b] =>
    match natFromDigits a, natFromDigits b with
    | some x, some y => some (x, y)
    | _, _ => none
  | _ => none

/-- Checks a list of decoded JSON values against schema.List(schema.String()):
succeeds exactly when every element is a string, returning the strings in
order. -/
def asStringList : List JSONValue → Option (List String)
  | [] => some []
  | .str s :: rest => (asStringList rest).map (s :: ·)
  | _ => none

/-- Go: schema.FieldMap(fields, nil).Coerce with the single declared field
capabilities of type list-of-strings (juju/schema, external).  The input
must be a map that contains the capabilities field with a list of strings;
unknown fields are ignored; no defaults, so absence is a failure. -/
def coerceVersionDoc : JSONValue → Option (List String)
  | .obj fields =>
    match fields.lookup "capabilities" with
    | some (.arr elems) => asStringList elems
    | _ => none
  | _ => none

/-- Go: controller.readAPIVersion — fetch the version document, coerce it,
and extract the capability strings.  A fetch failure propagates traced and
untagged; a coercion failure is wrapped as a deserialization error.  The
version returned is the one passed in (no patch parsing yet). -/
def readAPIVersion (c : ClientModel) (apiVersion : Number) :
    Except MaasError (List String × Number) :=
  match cget c "version" with
  | .error err => .error ⟨.plain, transportMessage err, some err⟩
  | .ok parsed =>
    match coerceVersionDoc parsed with
    | none => .error ⟨.deserialization, "version response", none⟩
    | some capabilities => .ok (capabilities, apiVersion)

/-- Failure of NewAuthenticatedClient (client.go, not under src/).
Modelled from the spec: Transport construction fails either because the
credential string is invalid (not-valid) or for any other reason. -/
inductive ClientCreationError where
  | notValid (msg : String)
  | other (msg : String)

/-- The environment of NewController: for each candidate version string,
NewAuthenticatedClient either yields the Transport bound to that version
or fails. -/
def ClientEnv : Type :=
  String → Except ClientCreationError ClientModel

/-- Go: the loop body of NewController over the candidate version list.
A bad entry in the supported-versions list fails outright; an invalid
credential string fails with not-valid and any other client-construction
failure with unexpected (both hard stops); a readAPIVersion failure is
soft and advances to the next candidate; a checkCreds failure is a hard
stop; success returns the negotiated controller. -/
def newControllerLoop (env : ClientEnv) : List String → Except MaasError Ctrl
  | [] =>
    .error ⟨.unsupportedVersion,
      "controller does not support any of the supported versions", none⟩
  | apiVersion :: rest =>
    match parseMajorMinor apiVersion with
    | none => .error ⟨.plain, "bad version defined in supported versions", none⟩
    | some (major, minor) =>
      match env apiVersion with
      | .error (.notValid m) => .error ⟨.notValid, m, none⟩
      | .error (.other m) => .error ⟨.unexpected, m, none⟩
      | .ok client =>
        match readAPIVersion client ⟨major, minor⟩ with
        | .error _ => newControllerLoop env rest
        | .ok (capabilities, ver) =>
          match checkCreds client with
          | .error e => .error e
          | .ok _ => .ok ⟨client, ver, capabilities⟩

/-- Go: supportedAPIVersions — ordered from most desirable to least. -/
def supportedAPIVersions : List String := ["2.0"]

/-- Go: NewController — negotiate over the supported versions. -/
def NewController (env : ClientEnv) : Except MaasError Ctrl :=
  newControllerLoop env supportedAPIVersions

/-- Two's-complement normalization of an int64 value: Go's
atomic.AddInt64 wraps on overflow. -/
def wrap64 (n : Int) : Int :=
  (n + 2 ^ 63) % 2 ^ 64 - 2 ^ 63

/-- Go: nextRequestID — atomically increments the package counter
requestNumber (an int64) and returns the new value.  The identifier is
used only in trace logging, so the sequencer is modelled as this step
function on the counter. -/
def nextRequestID (requestNumber : Int) : Int × Int :=
  let next := wrap64 (requestNumber + 1)
  (next, next)

/-- The counter value after k invocations of nextRequestID, starting from
the zero-initialised package variable. -/
def requestNumberAfter : Nat → Int
  | 0 => 0
  | k + 1 => (nextRequestID (requestNumberAfter k)).1

/-- The identifier handed to the k-th primitive invocation (k ≥ 1): the
value nextRequestID returns on its k-th call. -/
def requestIDAt (k : Nat) : Int :=
  requestNumberAfter k

/-- A Transport that fails every call with the given error. -/
def failingClient (e : TransportError) : ClientModel :=
  ⟨fun _ _ _ => .error e, fun _ _ _ _ => .error e, fun _ => .error e⟩

/-- A session handle over the given Transport, with an arbitrary
negotiated version and capability set. -/
def ctrlOver (cm : ClientModel) : Ctrl :=
  ⟨cm, ⟨2, 0⟩, []⟩

/-- A resource decoder that ignores its input. -/
def unitReader : Number → JSONValue → Except MaasError Unit :=
  fun _ _ => .ok ()

/-- C1: every row of the error-translation table holds: machine release
maps 400 to bad-request, 403 to permission-denied and 409 to
cannot-complete; machine allocation maps 409 to no-match; file fetch by
name maps 404 to no-match; device creation and file creation map 400 to
bad-request; the credential check maps 401 to permission-denied — each
wrapping the underlying ServerError and carrying its body message. -/
theorem C1_error_translation_table :
    (∀ (c : Ctrl) (args : ReleaseMachinesArgs) (body : String),
      (∀ p o ps fs, c.client.post p o ps fs = .error (.serverError 400 body)) →
      ReleaseMachines c args =
        .error ⟨.badRequest, body, some (.serverError 400 body)⟩) ∧
    (∀ (c : Ctrl) (args : ReleaseMachinesArgs) (body : String),
      (∀ p o ps fs, c.client.post p o ps fs = .error (.serverError 403 body)) →
      ReleaseMachines c args =
        .error ⟨.permissionDenied, body, some (.serverError 403 body)⟩) ∧
    (∀ (c : Ctrl) (args : ReleaseMachinesArgs) (body : String),
      (∀ p o ps fs, c.client.post p o ps fs = .error (.serverError 409 body)) →
      ReleaseMachines c args =
        .error ⟨.cannotComplete, body, some (.serverError 409 body)⟩) ∧
    (∀ (c : Ctrl) (args : AllocateMachineArgs) (body : String) (α : Type)
        (rdr : Number → JSONValue → Except MaasError α),
      (∀ p o ps fs, c.client.post p o ps fs = .error (.serverError 409 body)) →
      AllocateMachine c args rdr =
        .error ⟨.noMatch, body, some (.serverError 409 body)⟩) ∧
    (∀ (c : Ctrl) (filename body : String) (α : Type)
        (rdr : Number → JSONValue → Except MaasError α),
      filename ≠ "" →
      (∀ p o ps, c.client.get p o ps = .error (.serverError 404 body)) →
      GetFile c filename rdr =
        .error ⟨.noMatch, body, some (.serverError 404 body)⟩) ∧
    (∀ (c : Ctrl) (args : CreateDeviceArgs) (body : String) (α : Type)
        (rdr : Number → JSONValue → Except MaasError α),
      args.MACAddresses ≠ [] →
      (∀ p o ps fs, c.client.post p o ps fs = .error (.serverError 400 body)) →
      CreateDevice c args rdr =
        .error ⟨.badRequest, body, some (.serverError 400 body)⟩) ∧
    (∀ (c : Ctrl) (args : AddFileArgs) (body : String),
      args.Validate = none →
      (∀ p o ps fs, c.client.post p o ps fs = .error (.serverError 400 body)) →
      AddFile c args =
        .error ⟨.badRequest, body, some (.serverError 400 body)⟩) ∧
    (∀ (cm : ClientModel) (body : String),
      (∀ p o ps, cm.get p o ps = .error (.serverError 401 body)) →
      checkCreds cm =
        .error ⟨.permissionDenied, body, some (.serverError 401 body)⟩) := by
  refine ⟨?_, ?_, ?_, ?_, ?_, ?_, ?_, ?_⟩
  · intro c args body hp
    simp [ReleaseMachines, cpost, hp]
  · intro c args body hp
    simp [ReleaseMachines, cpost, hp]
  · intro c args body hp
    simp [ReleaseMachines, cpost, hp]
  · intro c args body α rdr hp
    simp [AllocateMachine, cpost, hp]
  · intro c filename body α rdr hne hg
    simp [GetFile, hne, cget, hg]
  · intro c args body α rdr hne hp
    rw [CreateDevice, if_neg (by simpa using hne)]
    simp [cpost, hp]
  · intro c args body hv hp
    simp [AddFile, hv, cpostFile, hp]
  · intro cm body hg
    simp [checkCreds, cgetOp, hg]

/-- Witness: each row of C1 on a concrete failing Transport. -/
theorem C1_error_translation_table_witness :
    (ReleaseMachines (ctrlOver (failingClient (.serverError 400 "m"))) ⟨["a"], ""⟩ =
      .error ⟨.badRequest, "m", some (.serverError 400 "m")⟩) ∧
    (ReleaseMachines (ctrlOver (failingClient (.serverError 403 "m"))) ⟨["a"], ""⟩ =
      .error ⟨.permissionDenied, "m", some (.serverError 403 "m")⟩) ∧
    (ReleaseMachines (ctrlOver (failingClient (.serverError 409 "m"))) ⟨["a"], ""⟩ =
      .error ⟨.cannotComplete, "m", some (.serverError 409 "m")⟩) ∧
    (AllocateMachine (ctrlOver (failingClient (.serverError 409 "m")))
        ⟨"", "", 0, 0, [], [], [], [], "", [], "", "", false⟩ unitReader =
      .error ⟨.noMatch, "m", some (.serverError 409 "m")⟩) ∧
    (GetFile (ctrlOver (failingClient (.serverError 404 "m"))) "db" unitReader =
      .error ⟨.noMatch, "m", some (.serverError 404 "m")⟩) ∧
    (CreateDevice (ctrlOver (failingClient (.serverError 400 "m")))
        ⟨"", ["mac"], "", ""⟩ unitReader =
      .error ⟨.badRequest, "m", some (.serverError 400 "m")⟩) ∧
    (AddFile (ctrlOver (failingClient (.serverError 400 "m")))
        ⟨"foo", some [7], none, 0⟩ =
      .error ⟨.badRequest, "m", some (.serverError 400 "m")⟩) ∧
    (checkCreds (failingClient (.serverError 401 "m")) =
      .error ⟨.permissionDenied, "m", some (.serverError 401 "m")⟩) :=
  ⟨C1_error_translation_table.1 _ _ _ (fun _ _ _ _ => rfl),
   C1_error_translation_table.2.1 _ _ _ (fun _ _ _ _ => rfl),
   C1_error_translation_table.2.2.1 _ _ _ (fun _ _ _ _ => rfl),
   C1_error_translation_table.2.2.2.1 _ _ _ _ _ (fun _ _ _ _ => rfl),
   C1_error_translation_table.2.2.2.2.1 _ _ _ _ _ (by decide)
     (fun _ _ _ => rfl),
   C1_error_translation_table.2.2.2.2.2.1 _ _ _ _ _ (by decide)
     (fun _ _ _ _ => rfl),
   C1_error_translation_table.2.2.2.2.2.2.1 _ _ _ (by decide)
     (fun _ _ _ _ => rfl),
   C1_error_translation_table.2.2.2.2.2.2.2 _ _ (fun _ _ _ => rfl)⟩

/-- C2: for every operation, a Transport failure whose status code is not
explicitly mapped for that operation — including failures that are not
ServerErrors at all — is returned as Kind = unexpected wrapping the
underlying cause, never as the raw transport failure. -/
theorem C2_unmapped_failures_unexpected :
    ∀ (e : TransportError),
    (∀ (c : Ctrl) (args : ReleaseMachinesArgs),
      statusOf e ≠ some 400 → statusOf e ≠ some 403 → statusOf e ≠ some 409 →
      (∀ p o ps fs, c.client.post p o ps fs = .error e) →
      ReleaseMachines c args = .error (NewUnexpectedError e)) ∧
    (∀ (c : Ctrl) (args : AllocateMachineArgs) (α : Type)
        (rdr : Number → JSONValue → Except MaasError α),
      statusOf e ≠ some 409 →
      (∀ p o ps fs, c.client.post p o ps fs = .error e) →
      AllocateMachine c args rdr = .error (NewUnexpectedError e)) ∧
    (∀ (c : Ctrl) (filename : String) (α : Type)
        (rdr : Number → JSONValue → Except MaasError α),
      filename ≠ "" → statusOf e ≠ some 404 →
      (∀ p o ps, c.client.get p o ps = .error e) →
      GetFile c filename rdr = .error (NewUnexpectedError e)) ∧
    (∀ (c : Ctrl) (args : CreateDeviceArgs) (α : Type)
        (rdr : Number → JSONValue → Except MaasError α),
      args.MACAddresses ≠ [] → statusOf e ≠ some 400 →
      (∀ p o ps fs, c.client.post p o ps fs = .error e) →
      CreateDevice c args rdr = .error (NewUnexpectedError e)) ∧
    (∀ (c : Ctrl) (args : AddFileArgs),
      args.Validate = none → statusOf e ≠ some 400 →
      (∀ p o ps fs, c.client.post p o ps fs = .error e) →
      AddFile c args = .error (NewUnexpectedError e)) ∧
    (∀ (cm : ClientModel),
      statusOf e ≠ some 401 →
      (∀ p o ps, cm.get p o ps = .error e) →
      checkCreds cm = .error (NewUnexpectedError e)) ∧
    (∀ (c : Ctrl) (α : Type) (rdr : Number → JSONValue → Except MaasError (List α)),
      (∀ p o ps, c.client.get p o ps = .error e) →
      BootResources c rdr = .error (NewUnexpectedError e) ∧
      Fabrics c rdr = .error (NewUnexpectedError e) ∧
      Spaces c rdr = .error (NewUnexpectedError e) ∧
      Zones c rdr = .error (NewUnexpectedError e)) ∧
    (∀ (c : Ctrl) (dargs : DevicesArgs) (margs : MachinesArgs) (pfx : String)
        (α : Type) (rdr : Number → JSONValue → Except MaasError (List α)),
      (∀ p o ps, c.client.get p o ps = .error e) →
      Devices c dargs rdr = .error (NewUnexpectedError e) ∧
      Machines c margs rdr = .error (NewUnexpectedError e) ∧
      Files c pfx rdr = .error (NewUnexpectedError e)) := by
  intro e
  refine ⟨?_, ?_, ?_, ?_, ?_, ?_, ?_, ?_⟩
  · intro c args h400 h403 h409 hp
    cases e with
    | serverError s b =>
      simp only [statusOf, ne_eq, Option.some.injEq] at h400 h403 h409
      simp [ReleaseMachines, cpost, hp, h400, h403, h409]
    | generic m => simp [ReleaseMachines, cpost, hp]
  · intro c args α rdr h409 hp
    cases e with
    | serverError s b =>
      simp only [statusOf, ne_eq, Option.some.injEq] at h409
      simp [AllocateMachine, cpost, hp, h409]
    | generic m => simp [AllocateMachine, cpost, hp]
  · intro c filename α rdr hne h404 hg
    cases e with
    | serverError s b =>
      simp only [statusOf, ne_eq, Option.some.injEq] at h404
      simp [GetFile, hne, cget, hg, h404]
    | generic m => simp [GetFile, hne, cget, hg]
  · intro c args α rdr hmac h400 hp
    rw [CreateDevice, if_neg (by simpa using hmac)]
    cases e with
    | serverError s b =>
      simp only [statusOf, ne_eq, Option.some.injEq] at h400
      simp [cpost, hp, h400]
    | generic m => simp [cpost, hp]
  · intro c args hv h400 hp
    cases e with
    | serverError s b =>
      simp only [statusOf, ne_eq, Option.some.injEq] at h400
      simp [AddFile, hv, cpostFile, hp, h400]
    | generic m => simp [AddFile, hv, cpostFile, hp]
  · intro cm h401 hg
    cases e with
    | serverError s b =>
      simp only [statusOf, ne_eq, Option.some.injEq] at h401
      simp [checkCreds, cgetOp, hg, h401]
    | generic m => simp [checkCreds, cgetOp, hg]
  · intro c α rdr hg
    exact ⟨by simp [BootResources, cget, hg], by simp [Fabrics, cget, hg],
      by simp [Spaces, cget, hg], by simp [Zones, cget, hg]⟩
  · intro c dargs margs pfx α rdr hg
    exact ⟨by simp [Devices, cgetQuery, hg], by simp [Machines, cgetQuery, hg],
      by simp [Files, cgetQuery, hg]⟩

/-- Witness: every conjunct of C2 on a Transport failing with a generic
(non-ServerError) error. -/
theorem C2_unmapped_failures_unexpected_witness :
    (ReleaseMachines (ctrlOver (failingClient (.generic "g"))) ⟨["a"], ""⟩ =
      .error (NewUnexpectedError (.generic "g"))) ∧
    (AllocateMachine (ctrlOver (failingClient (.generic "g")))
        ⟨"", "", 0, 0, [], [], [], [], "", [], "", "", false⟩ unitReader =
      .error (NewUnexpectedError (.generic "g"))) ∧
    (GetFile (ctrlOver (failingClient (.generic "g"))) "db" unitReader =
      .error (NewUnexpectedError (.generic "g"))) ∧
    (CreateDevice (ctrlOver (failingClient (.generic "g")))
        ⟨"", ["mac"], "", ""⟩ unitReader =
      .error (NewUnexpectedError (.generic "g"))) ∧
    (AddFile (ctrlOver (failingClient (.generic "g"))) ⟨"foo", some [7], none, 0⟩ =
      .error (NewUnexpectedError (.generic "g"))) ∧
    (checkCreds (failingClient (.generic "g")) =
      .error (NewUnexpectedError (.generic "g"))) ∧
    (BootResources (ctrlOver (failingClient (.generic "g")))
        (fun _ _ => .ok ([] : List Unit)) =
      .error (NewUnexpectedError (.generic "g"))) ∧
    (Devices (ctrlOver (failingClient (.generic "g"))) ⟨"", [], [], "", "", ""⟩
        (fun _ _ => .ok ([] : List Unit)) =
      .error (NewUnexpectedError (.generic "g"))) :=
  ⟨(C2_unmapped_failures_unexpected (.generic "g")).1 _ _ (by decide) (by decide)
      (by decide) (fun _ _ _ _ => rfl),
   (C2_unmapped_failures_unexpected (.generic "g")).2.1 _ _ _ _ (by decide)
      (fun _ _ _ _ => rfl),
   (C2_unmapped_failures_unexpected (.generic "g")).2.2.1 _ _ _ _ (by decide)
      (by decide) (fun _ _ _ => rfl),
   (C2_unmapped_failures_unexpected (.generic "g")).2.2.2.1 _ _ _ _ (by decide)
      (by decide) (fun _ _ _ _ => rfl),
   (C2_unmapped_failures_unexpected (.generic "g")).2.2.2.2.1 _ _ (by decide)
      (by decide) (fun _ _ _ _ => rfl),
   (C2_unmapped_failures_unexpected (.generic "g")).2.2.2.2.2.1 _ (by decide)
      (fun _ _ _ => rfl),
   ((C2_unmapped_failures_unexpected (.generic "g")).2.2.2.2.2.2.1 _ Unit _
      (fun _ _ _ => rfl)).1,
   ((C2_unmapped_failures_unexpected (.generic "g")).2.2.2.2.2.2.2 _
      ⟨"", [], [], "", "", ""⟩ ⟨[], [], [], "", "", ""⟩ "" Unit _
      (fun _ _ _ => rfl)).1⟩

lemma readAPIVersion_ok_version (cm : ClientModel) (a : Number)
    (caps : List String) (ver : Number)
    (h : readAPIVersion cm a = .ok (caps, ver)) : ver = a := by
  unfold readAPIVersion at h
  split at h
  · exact absurd h (by simp)
  · split at h
    · exact absurd h (by simp)
    · simp only [Except.ok.injEq, Prod.mk.injEq] at h
      exact h.2.symm

/-- C3: when the authenticated identity check on a candidate version fails
with HTTP 401, negotiation terminates at once with Kind = permission-denied
wrapping the 401 ServerError, for every possible tail of later candidates —
no subsequent candidate is attempted. -/
theorem C3_creds_401_stops_negotiation :
    ∀ (env : ClientEnv) (v : String) (rest : List String) (cm : ClientModel)
      (M m : Nat) (caps : List String) (ver : Number) (body : String),
      parseMajorMinor v = some (M, m) →
      env v = .ok cm →
      readAPIVersion cm ⟨M, m⟩ = .ok (caps, ver) →
      cgetOp cm "users" "whoami" = .error (.serverError 401 body) →
      newControllerLoop env (v :: rest) =
        .error ⟨.permissionDenied, body, some (.serverError 401 body)⟩ := by
  intro env v rest cm M m caps ver body hparse henv hread hwho
  simp only [newControllerLoop, hparse, henv, hread]
  simp [checkCreds, hwho]

/-- A Transport whose version document is well-formed with an empty
capability list but whose identity check is rejected with 401. -/
def clientDenied : ClientModel :=
  ⟨fun p o _ =>
      if p = "version/" ∧ o = "" then .ok (.obj [("capabilities", .arr [])])
      else .error (.serverError 401 "denied"),
   fun _ _ _ _ => .error (.generic "unused"),
   fun _ => .error (.generic "unused")⟩

/-- Witness: C3 on candidates 2.0 then 1.0 against clientDenied — the 1.0
candidate is never reached. -/
theorem C3_creds_401_stops_negotiation_witness :
    newControllerLoop (fun _ => .ok clientDenied) ["2.0", "1.0"] =
      .error ⟨.permissionDenied, "denied", some (.serverError 401 "denied")⟩ :=
  C3_creds_401_stops_negotiation (fun _ => .ok clientDenied) "2.0" ["1.0"]
    clientDenied 2 0 [] ⟨2, 0⟩ "denied" rfl rfl rfl rfl

/-- C4: a failure to read or coerce a candidate's version document is
soft — negotiation continues with the remaining candidates exactly as if
the failed candidate were absent; and on candidates 2.0 then 1.0 where the
2.0 document is malformed and 1.0 succeeds, the session ends up negotiated
on version 1.0. -/
theorem C4_soft_version_failure_advances :
    (∀ (env : ClientEnv) (v : String) (rest : List String) (cm : ClientModel)
        (M m : Nat) (d : MaasError),
      parseMajorMinor v = some (M, m) →
      env v = .ok cm →
      readAPIVersion cm ⟨M, m⟩ = .error d →
      newControllerLoop env (v :: rest) = newControllerLoop env rest) ∧
    (∀ (env : ClientEnv) (c1 c2 : ClientModel) (doc : JSONValue)
        (caps : List String) (ver : Number),
      env "2.0" = .ok c1 →
      cget c1 "version" = .ok doc →
      coerceVersionDoc doc = none →
      env "1.0" = .ok c2 →
      readAPIVersion c2 ⟨1, 0⟩ = .ok (caps, ver) →
      checkCreds c2 = .ok () →
      newControllerLoop env ["2.0", "1.0"] = .ok ⟨c2, ver, caps⟩ ∧
        ver = ⟨1, 0⟩) := by
  constructor
  · intro env v rest cm M m d hparse henv hread
    simp only [newControllerLoop, hparse, henv, hread]
  · intro env c1 c2 doc caps ver henv1 hget hco henv2 hread hcheck
    refine ⟨?_, readAPIVersion_ok_version c2 ⟨1, 0⟩ caps ver hread⟩
    have h1 : readAPIVersion c1 ⟨2, 0⟩ =
        .error ⟨.deserialization, "version response", none⟩ := by
      simp only [readAPIVersion, hget, hco]
    simp only [newControllerLoop,
      show parseMajorMinor "2.0" = some (2, 0) from rfl,
      show parseMajorMinor "1.0" = some (1, 0) from rfl,
      henv1, h1, henv2, hread, hcheck]

/-- A Transport whose version document is malformed (capabilities holds a
non-string element) but whose identity check succeeds. -/
def clientMalformed : ClientModel :=
  ⟨fun p o _ =>
      if p = "version/" ∧ o = "" then .ok (.obj [("capabilities", .arr [.num 3])])
      else .ok .null,
   fun _ _ _ _ => .error (.generic "unused"),
   fun _ => .error (.generic "unused")⟩

/-- A Transport whose version document reports capability "net" and whose
identity check succeeds. -/
def clientGood : ClientModel :=
  ⟨fun p o _ =>
      if p = "version/" ∧ o = "" then
        .ok (.obj [("capabilities", .arr [.str "net"])])
      else .ok .null,
   fun _ _ _ _ => .error (.generic "unused"),
   fun _ => .error (.generic "unused")⟩

/-- The environment serving clientMalformed for 2.0 and clientGood for
every other candidate. -/
def envMixed : ClientEnv :=
  fun v => if v = "2.0" then .ok clientMalformed else .ok clientGood

/-- Witness: C4 on envMixed — 2.0's malformed document is skipped and the
session is negotiated on version 1.0. -/
theorem C4_soft_version_failure_advances_witness :
    newControllerLoop envMixed ["2.0", "1.0"] =
      .ok ⟨clientGood, ⟨1, 0⟩, ["net"]⟩ ∧ (⟨1, 0⟩ : Number) = ⟨1, 0⟩ :=
  C4_soft_version_failure_advances.2 envMixed clientMalformed clientGood
    (.obj [("capabilities", .arr [.num 3])]) ["net"] ⟨1, 0⟩
    rfl rfl rfl rfl rfl rfl

/-- C5: when negotiation succeeds on candidate 2.0, the returned session
reports Version 2.0 and its Capability Set holds exactly the strings of
the capabilities list in the returned version document. -/
theorem C5_success_reports_version_and_capabilities :
    ∀ (env : ClientEnv) (cm : ClientModel) (fields : List (String × JSONValue))
      (elems : List JSONValue) (caps : List String),
      env "2.0" = .ok cm →
      cget cm "version" = .ok (.obj fields) →
      fields.lookup "capabilities" = some (.arr elems) →
      asStringList elems = some caps →
      checkCreds cm = .ok () →
      ∃ ctrl : Ctrl, NewController env = .ok ctrl ∧
        ctrl.apiVersion = ⟨2, 0⟩ ∧
        (∀ s : String, s ∈ ctrl.capabilities ↔ s ∈ caps) := by
  intro env cm fields elems caps henv hget hlook hstr hcheck
  refine ⟨⟨cm, ⟨2, 0⟩, caps⟩, ?_, rfl, fun s => Iff.rfl⟩
  have hread : readAPIVersion cm ⟨2, 0⟩ = .ok (caps, ⟨2, 0⟩) := by
    simp only [readAPIVersion, hget, coerceVersionDoc, hlook, hstr]
  simp only [NewController, supportedAPIVersions, newControllerLoop,
    show parseMajorMinor "2.0" = some (2, 0) from rfl, henv, hread, hcheck]

/-- Witness: C5 on clientGood — version 2.0 and capability set containing
exactly "net". -/
theorem C5_success_reports_version_and_capabilities_witness :
    ∃ ctrl : Ctrl, NewController (fun _ => .ok clientGood) = .ok ctrl ∧
      ctrl.apiVersion = ⟨2, 0⟩ ∧
      (∀ s : String, s ∈ ctrl.capabilities ↔ s ∈ ["net"]) :=
  C5_success_reports_version_and_capabilities (fun _ => .ok clientGood)
    clientGood [("capabilities", .arr [.str "net"])] [.str "net"] ["net"]
    rfl rfl rfl rfl rfl

lemma asStringList_eq_none_of_nonstring (elems : List JSONValue)
    (x : JSONValue) (hx : x ∈ elems) (hns : x.isString = false) :
    asStringList elems = none := by
  induction elems with
  | nil => cases hx
  | cons a rest ih =>
    cases hx with
    | head =>
      cases x with
      | str s => simp [JSONValue.isString] at hns
      | obj f => rfl
      | arr l => rfl
      | num n => rfl
      | bool b => rfl
      | null => rfl
    | tail _ hmem =>
      cases a with
      | str s => simp only [asStringList, ih hmem, Option.map_none']
      | obj f => rfl
      | arr l => rfl
      | num n => rfl
      | bool b => rfl
      | null => rfl

/-- C6: schema coercion of the version document fails with a
deserialization error whenever the decoded value lacks the capabilities
field, and whenever that field's list contains any non-string element; no
default is injected for the missing field. -/
theorem C6_version_document_coercion_failures :
    (∀ (cm : ClientModel) (v : Number) (fields : List (String × JSONValue)),
      cget cm "version" = .ok (.obj fields) →
      fields.lookup "capabilities" = none →
      readAPIVersion cm v =
        .error ⟨.deserialization, "version response", none⟩) ∧
    (∀ (cm : ClientModel) (v : Number) (fields : List (String × JSONValue))
        (elems : List JSONValue) (x : JSONValue),
      cget cm "version" = .ok (.obj fields) →
      fields.lookup "capabilities" = some (.arr elems) →
      x ∈ elems → x.isString = false →
      readAPIVersion cm v =
        .error ⟨.deserialization, "version response", none⟩) := by
  constructor
  · intro cm v fields hget hlook
    simp only [readAPIVersion, hget, coerceVersionDoc, hlook]
  · intro cm v fields elems x hget hlook hmem hns
    simp only [readAPIVersion, hget, coerceVersionDoc, hlook,
      asStringList_eq_none_of_nonstring elems x hmem hns]

/-- A Transport whose version document lacks the capabilities field. -/
def clientNoCaps : ClientModel :=
  ⟨fun p o _ =>
      if p = "version/" ∧ o = "" then .ok (.obj [("other", .num 1)])
      else .ok .null,
   fun _ _ _ _ => .error (.generic "unused"),
   fun _ => .error (.generic "unused")⟩

/-- Witness: C6 on a document without capabilities and on a document whose
capabilities list holds the number 3. -/
theorem C6_version_document_coercion_failures_witness :
    (readAPIVersion clientNoCaps ⟨2, 0⟩ =
      .error ⟨.deserialization, "version response", none⟩) ∧
    (readAPIVersion clientMalformed ⟨2, 0⟩ =
      .error ⟨.deserialization, "version response", none⟩) :=
  ⟨C6_version_document_coercion_failures.1 clientNoCaps ⟨2, 0⟩
      [("other", .num 1)] rfl rfl,
   C6_version_document_coercion_failures.2 clientMalformed ⟨2, 0⟩
      [("capabilities", .arr [.num 3])] [.num 3] (.num 3) rfl rfl
      (List.mem_singleton.mpr rfl) rfl⟩

lemma validate_some_notValid (a : AddFileArgs) (e : MaasError)
    (h : a.Validate = some e) : e.kind = .notValid ∧ e.cause = none := by
  obtain ⟨f, co, re, le⟩ := a
  unfold AddFileArgs.Validate at h
  cases co <;> cases re <;> dsimp only at h <;> split_ifs at h <;>
    (cases h; exact ⟨rfl, rfl⟩)

lemma addFile_validation_error (c : Ctrl) (a : AddFileArgs) (e : MaasError)
    (h : a.Validate = some e) : AddFile c a = .error e := by
  simp [AddFile, h]

/-- C7 as stated is false: CreateDevice rejects an empty MAC-address list
locally, before any network call, with an error of Kind = bad-request, not
not-valid. -/
theorem C7_counterexample :
    CreateDevice (ctrlOver (failingClient (.generic "unused")))
        ⟨"h", [], "", ""⟩ unitReader =
      .error ⟨.badRequest, "at least one MAC address must be specified", none⟩ ∧
    ErrorKind.badRequest ≠ ErrorKind.notValid :=
  ⟨rfl, by decide⟩

/-- A Transport that answers every call with the given JSON value. -/
def okClient (v : JSONValue) : ClientModel :=
  ⟨fun _ _ _ => .ok v, fun _ _ _ _ => .ok v, fun _ => .ok ()⟩

/-- C7 amended: every Semantic Error that GetFile, AddFile or CreateDevice
constructs locally, before any network call, from malformed caller
arguments carries Kind = not-valid — except CreateDevice's empty-MAC
check, which carries Kind = bad-request — and no underlying cause; errors
of any other Kind are only ever constructed by these operations from an
underlying Transport error, which they wrap as their cause: when the
Transport call succeeds, the operation constructs no error at all — the
result is the external decoder's verbatim (or plain success for
AddFile). -/
theorem C7_amended_local_error_kinds :
    (∀ (c : Ctrl) (α : Type) (rdr : Number → JSONValue → Except MaasError α),
      GetFile c "" rdr = .error ⟨.notValid, "missing filename", none⟩) ∧
    (∀ (a : AddFileArgs) (e : MaasError) (c : Ctrl),
      a.Validate = some e →
      e.kind = .notValid ∧ e.cause = none ∧ AddFile c a = .error e) ∧
    (∀ (c : Ctrl) (args : CreateDeviceArgs) (α : Type)
        (rdr : Number → JSONValue → Except MaasError α),
      args.MACAddresses = [] →
      CreateDevice c args rdr =
        .error ⟨.badRequest, "at least one MAC address must be specified",
          none⟩) ∧
    (∀ (e : TransportError) (c : Ctrl) (filename : String) (α : Type)
        (rdr : Number → JSONValue → Except MaasError α),
      filename ≠ "" →
      (∀ p o ps, c.client.get p o ps = .error e) →
      ∃ m : MaasError, GetFile c filename rdr = .error m ∧ m.cause = some e) ∧
    (∀ (v : JSONValue) (c : Ctrl) (filename : String) (α : Type)
        (rdr : Number → JSONValue → Except MaasError α),
      filename ≠ "" →
      (∀ p o ps, c.client.get p o ps = .ok v) →
      GetFile c filename rdr = rdr c.apiVersion v) ∧
    (∀ (e : TransportError) (c : Ctrl) (args : CreateDeviceArgs) (α : Type)
        (rdr : Number → JSONValue → Except MaasError α),
      args.MACAddresses ≠ [] →
      (∀ p o ps fs, c.client.post p o ps fs = .error e) →
      ∃ m : MaasError, CreateDevice c args rdr = .error m ∧
        m.cause = some e) ∧
    (∀ (v : JSONValue) (c : Ctrl) (args : CreateDeviceArgs) (α : Type)
        (rdr : Number → JSONValue → Except MaasError α),
      args.MACAddresses ≠ [] →
      (∀ p o ps fs, c.client.post p o ps fs = .ok v) →
      CreateDevice c args rdr = rdr c.apiVersion v) ∧
    (∀ (e : TransportError) (c : Ctrl) (args : AddFileArgs),
      args.Validate = none →
      (∀ p o ps fs, c.client.post p o ps fs = .error e) →
      ∃ m : MaasError, AddFile c args = .error m ∧ m.cause = some e) ∧
    (∀ (v : JSONValue) (c : Ctrl) (args : AddFileArgs),
      args.Validate = none →
      (∀ p o ps fs, c.client.post p o ps fs = .ok v) →
      AddFile c args = .ok ()) := by
  refine ⟨?_, ?_, ?_, ?_, ?_, ?_, ?_, ?_, ?_⟩
  · intro c α rdr
    simp [GetFile]
  · intro a e c h
    exact ⟨(validate_some_notValid a e h).1, (validate_some_notValid a e h).2,
      addFile_validation_error c a e h⟩
  · intro c args α rdr h
    rw [CreateDevice, if_pos (by simp [h])]
  · intro e c filename α rdr hne hg
    rw [GetFile, if_neg hne]
    simp only [cget, hg]
    cases e with
    | serverError s b =>
      refine ⟨_, rfl, ?_⟩
      simp only [NewUnexpectedError]
      split_ifs <;> rfl
    | generic m => exact ⟨_, rfl, rfl⟩
  · intro v c filename α rdr hne hg
    rw [GetFile, if_neg hne]
    simp only [cget, hg]
  · intro e c args α rdr hmac hp
    rw [CreateDevice, if_neg (by simpa using hmac)]
    simp only [cpost, hp]
    cases e with
    | serverError s b =>
      refine ⟨_, rfl, ?_⟩
      simp only [NewUnexpectedError]
      split_ifs <;> rfl
    | generic m => exact ⟨_, rfl, rfl⟩
  · intro v c args α rdr hmac hp
    rw [CreateDevice, if_neg (by simpa using hmac)]
    simp only [cpost, hp]
    cases hr : rdr c.apiVersion v <;> simp [hr]
  · intro e c args hv hp
    simp only [AddFile, hv, cpostFile, hp]
    cases e with
    | serverError s b =>
      refine ⟨_, rfl, ?_⟩
      simp only [NewUnexpectedError]
      split_ifs <;> rfl
    | generic m => exact ⟨_, rfl, rfl⟩
  · intro v c args hv hp
    simp only [AddFile, hv, cpostFile, hp]

/-- Witness: each part of the amended C7 at concrete inputs — the three
local validation errors, the cause-wrapping of a 500 ServerError by each
of GetFile, CreateDevice and AddFile, and the construction of no error by
each of them on a successful Transport call. -/
theorem C7_amended_local_error_kinds_witness :
    (GetFile (ctrlOver (failingClient (.generic "x"))) "" unitReader =
      .error ⟨.notValid, "missing filename", none⟩) ∧
    (AddFile (ctrlOver (failingClient (.generic "x"))) ⟨"", none, none, 0⟩ =
      .error ⟨.notValid, "missing Filename", none⟩) ∧
    (CreateDevice (ctrlOver (failingClient (.generic "x"))) ⟨"", [], "", ""⟩
        unitReader =
      .error ⟨.badRequest, "at least one MAC address must be specified",
        none⟩) ∧
    (∃ m : MaasError,
      GetFile (ctrlOver (failingClient (.serverError 500 "b"))) "db"
          unitReader = .error m ∧ m.cause = some (.serverError 500 "b")) ∧
    (GetFile (ctrlOver (okClient .null)) "db" unitReader =
      unitReader ⟨2, 0⟩ .null) ∧
    (∃ m : MaasError,
      CreateDevice (ctrlOver (failingClient (.serverError 500 "b")))
          ⟨"", ["mac"], "", ""⟩ unitReader = .error m ∧
        m.cause = some (.serverError 500 "b")) ∧
    (CreateDevice (ctrlOver (okClient .null)) ⟨"", ["mac"], "", ""⟩
        unitReader = unitReader ⟨2, 0⟩ .null) ∧
    (∃ m : MaasError,
      AddFile (ctrlOver (failingClient (.serverError 500 "b")))
          ⟨"foo", some [7], none, 0⟩ = .error m ∧
        m.cause = some (.serverError 500 "b")) ∧
    (AddFile (ctrlOver (okClient .null)) ⟨"foo", some [7], none, 0⟩ =
      .ok ()) :=
  ⟨C7_amended_local_error_kinds.1 _ Unit unitReader,
   (C7_amended_local_error_kinds.2.1 ⟨"", none, none, 0⟩
      ⟨.notValid, "missing Filename", none⟩ _ rfl).2.2,
   C7_amended_local_error_kinds.2.2.1 _ _ Unit unitReader rfl,
   C7_amended_local_error_kinds.2.2.2.1 (.serverError 500 "b") _ "db" Unit
      unitReader (by decide) (fun _ _ _ => rfl),
   C7_amended_local_error_kinds.2.2.2.2.1 .null _ "db" Unit unitReader
      (by decide) (fun _ _ _ => rfl),
   C7_amended_local_error_kinds.2.2.2.2.2.1 (.serverError 500 "b") _
      ⟨"", ["mac"], "", ""⟩ Unit unitReader (by decide) (fun _ _ _ _ => rfl),
   C7_amended_local_error_kinds.2.2.2.2.2.2.1 .null _ ⟨"", ["mac"], "", ""⟩
      Unit unitReader (by decide) (fun _ _ _ _ => rfl),
   C7_amended_local_error_kinds.2.2.2.2.2.2.2.1 (.serverError 500 "b") _
      ⟨"foo", some [7], none, 0⟩ rfl (fun _ _ _ _ => rfl),
   C7_amended_local_error_kinds.2.2.2.2.2.2.2.2 .null _
      ⟨"foo", some [7], none, 0⟩ rfl (fun _ _ _ _ => rfl)⟩

lemma wrap64_wrap64_add (a b : Int) : wrap64 (wrap64 a + b) = wrap64 (a + b) := by
  unfold wrap64
  have hD : (0 : Int) < 2 ^ 64 := by positivity
  omega

lemma requestNumberAfter_eq_wrap64 (k : Nat) :
    requestNumberAfter k = wrap64 (k : Int) := by
  induction k with
  | zero =>
    show (0 : Int) = wrap64 0
    unfold wrap64
    norm_num
  | succ n ih =>
    show (nextRequestID (requestNumberAfter n)).1 = wrap64 ((n : Int) + 1)
    rw [nextRequestID, ih, wrap64_wrap64_add]

/-- C8 as stated is false: the int64 counter behind nextRequestID wraps,
so the identifier issued on the first invocation is issued again on
invocation 2^64 + 1 — two distinct invocations share a sequence number. -/
theorem C8_counterexample :
    requestIDAt 1 = requestIDAt (2 ^ 64 + 1) ∧ (1 : Nat) ≠ 2 ^ 64 + 1 := by
  constructor
  · rw [requestIDAt, requestIDAt, requestNumberAfter_eq_wrap64,
      requestNumberAfter_eq_wrap64]
    unfold wrap64
    norm_num
  · norm_num

/-- C8 amended: every primitive invocation draws its identifier from
nextRequestID, and the identifiers are strictly increasing — hence
pairwise distinct — as long as the number of invocations stays below 2^63,
the point at which the int64 counter overflows. -/
theorem C8_amended_ids_strictly_increasing :
    ∀ i j : Nat, i < j → j < 2 ^ 63 →
      requestIDAt i < requestIDAt j ∧ requestIDAt i ≠ requestIDAt j := by
  intro i j hij hj
  have hsmall : ∀ k : Nat, k < 2 ^ 63 → requestIDAt k = (k : Int) := by
    intro k hk
    rw [requestIDAt, requestNumberAfter_eq_wrap64]
    unfold wrap64
    have : (k : Int) < 2 ^ 63 := by exact_mod_cast hk
    omega
  rw [hsmall i (lt_trans hij hj), hsmall j hj]
  exact ⟨by exact_mod_cast hij, by exact_mod_cast Nat.ne_of_lt hij⟩

/-- Witness: C8 amended at invocations 1 and 2. -/
theorem C8_amended_ids_strictly_increasing_witness :
    requestIDAt 1 < requestIDAt 2 ∧ requestIDAt 1 ≠ requestIDAt 2 :=
  C8_amended_ids_strictly_increasing 1 2 (by norm_num) (by norm_num)

lemma string_mk_eq_empty_iff (l : List Char) : (⟨l⟩ : String) = "" ↔ l = [] := by
  constructor
  · intro h
    exact congrArg String.data h
  · intro h
    rw [h]

lemma pathSplit_dir_empty_iff (s : String) :
    (pathSplit s).1 = "" ↔ '/' ∉ s.data := by
  unfold pathSplit
  dsimp only
  rw [string_mk_eq_empty_iff, List.reverse_eq_nil_iff, List.dropWhile_eq_nil_iff]
  constructor
  · intro h hmem
    have := h '/' (List.mem_reverse.mpr hmem)
    simp at this
  · intro h x hx
    have hxs : x ∈ s.data := List.mem_reverse.mp hx
    simp only [ne_eq, decide_not, Bool.not_eq_true', decide_eq_false_iff_not]
    intro hEq
    exact h (hEq ▸ hxs)

/-- C9: Validate accepts exactly a non-empty filename without a path
separator together with exactly one content form — Content alone with zero
Length, or Reader alone with nonzero Length; every rejection is a
not-valid error, and a failed validation makes AddFile return that error
with no network call (the result is the same for every Transport). -/
theorem C9_validate_exact_conditions :
    ∀ a : AddFileArgs,
      (a.Validate = none ↔
        a.Filename ≠ "" ∧ '/' ∉ a.Filename.data ∧
        ((a.Content.isSome ∧ a.Reader = none ∧ a.Length = 0) ∨
         (a.Content = none ∧ a.Reader.isSome ∧ a.Length ≠ 0))) ∧
      (∀ e : MaasError, a.Validate = some e → e.kind = .notValid) ∧
      (∀ (e : MaasError) (c : Ctrl), a.Validate = some e →
        AddFile c a = .error e) := by
  intro a
  refine ⟨?_, fun e h => (validate_some_notValid a e h).1,
    fun e c h => addFile_validation_error c a e h⟩
  obtain ⟨f, co, re, le⟩ := a
  unfold AddFileArgs.Validate
  cases co <;> cases re <;>
    simp [pathSplit_dir_empty_iff, and_assoc] <;>
    split_ifs <;>
    simp_all

/-- Witness: C9 at a concrete accepted input and a concrete rejected one. -/
theorem C9_validate_exact_conditions_witness :
    AddFileArgs.Validate ⟨"foo", none, some [1], 5⟩ = none ∧
    AddFile (ctrlOver (failingClient (.generic "x"))) ⟨"", none, none, 0⟩ =
      .error ⟨.notValid, "missing Filename", none⟩ :=
  ⟨(C9_validate_exact_conditions ⟨"foo", none, some [1], 5⟩).1.mpr
      ⟨by decide, by decide, Or.inr ⟨rfl, rfl, by decide⟩⟩,
   (C9_validate_exact_conditions ⟨"", none, none, 0⟩).2.2
      ⟨.notValid, "missing Filename", none⟩ _ rfl⟩

/-- The status translation AddFile applies to the outcome of the
file-creation POST. -/
def addFileTranslate : Except TransportError JSONValue → Except MaasError Unit
  | .error err =>
    .error <|
      match err with
      | .serverError status body =>
        if status = 400 then ⟨.badRequest, body, some err⟩
        else NewUnexpectedError err
      | .generic _ => NewUnexpectedError err
  | .ok _ => .ok ()

/-- C10: when AddFile is given a Reader and a Length, the file content it
posts is the reader's first Length bytes — all of them when the reader
yields fewer — and a short reader causes no error: the outcome is exactly
the translation of the Transport's response to that truncated content,
and a successful response yields success. -/
theorem C10_reader_content_truncated :
    ∀ (c : Ctrl) (args : AddFileArgs) (bs : List Nat),
      args.Content = none → args.Reader = some bs → args.Validate = none →
      AddFile c args =
        addFileTranslate (cpostFile c.client "files" "create"
          [("filename", args.Filename)] (bs.take args.Length.toNat)) ∧
      (bs.take args.Length.toNat).length ≤ args.Length.toNat ∧
      (args.Length.toNat ≤ bs.length →
        (bs.take args.Length.toNat).length = args.Length.toNat) ∧
      (bs.length ≤ args.Length.toNat → bs.take args.Length.toNat = bs) ∧
      (∀ r, cpostFile c.client "files" "create" [("filename", args.Filename)]
          (bs.take args.Length.toNat) = .ok r → AddFile c args = .ok ()) := by
  intro c args bs hc hr hv
  have hmain : AddFile c args =
      addFileTranslate (cpostFile c.client "files" "create"
        [("filename", args.Filename)] (bs.take args.Length.toNat)) := by
    unfold AddFile
    rw [hv, hc, hr]
    cases hres : cpostFile c.client "files" "create"
        [("filename", args.Filename)] (bs.take args.Length.toNat) with
    | error err => simp [addFileTranslate, hres, Option.getD]
    | ok r => simp [addFileTranslate, hres, Option.getD]
  refine ⟨hmain, ?_, ?_, ?_, ?_⟩
  · simp [List.length_take]
  · intro h
    simp [List.length_take]
    omega
  · intro h
    exact List.take_of_length_le h
  · intro r hres
    rw [hmain, hres]
    rfl

/-- Witness: C10 with a three-byte reader declared as five bytes long —
all three bytes are posted and a successful response yields success. -/
theorem C10_reader_content_truncated_witness :
    AddFile (ctrlOver (failingClient (.generic "x")))
        ⟨"f", none, some [1, 2, 3], 5⟩ =
      addFileTranslate (cpostFile (failingClient (.generic "x")) "files"
        "create" [("filename", "f")] ([1, 2, 3].take (Int.toNat 5))) ∧
    ([1, 2, 3].take (Int.toNat 5)).length ≤ Int.toNat 5 ∧
    (Int.toNat 5 ≤ [1, 2, 3].length →
      ([1, 2, 3].take (Int.toNat 5)).length = Int.toNat 5) ∧
    ([1, 2, 3].length ≤ Int.toNat 5 → [1, 2, 3].take (Int.toNat 5) = [1, 2, 3]) ∧
    (∀ r, cpostFile (failingClient (.generic "x")) "files" "create"
        [("filename", "f")] ([1, 2, 3].take (Int.toNat 5)) = .ok r →
      AddFile (ctrlOver (failingClient (.generic "x")))
        ⟨"f", none, some [1, 2, 3], 5⟩ = .ok ()) :=
  C10_reader_content_truncated (ctrlOver (failingClient (.generic "x")))
    ⟨"f", none, some [1, 2, 3], 5⟩ [1, 2, 3] rfl rfl rfl

end Gomaasapi
